import Mathlib

/-!
Custom test-runner commands of `cypress/support/commands.js`.

A shallow embedding of the support file: the `login` command, the
overwritten `visit` command, the `uncaught:exception` handler and the
`test:after:run` handler.

The test runner executes commands one after the other from a single queue and
stops at the first command that fails.  A run is therefore modelled as a
function from a browser state to an `Outcome`: the events that took place, in
order, and either the failing command or the final state.  The browser itself
(which command succeeds in which state, and what `document.cookie` holds) is a
parameter, `World`.
-/

namespace Commands

/-! ## JavaScript values -/

/-- The JavaScript values the support file handles: `undefined` (an omitted
parameter, a missing property, an unset environment entry) and strings. -/
inductive Val where
  | undefined : Val
  | str (s : String) : Val
  deriving DecidableEq, Repr

namespace Val

/-- Truthiness: `undefined` and the empty string are falsy. -/
def truthy : Val → Bool
  | undefined => false
  | str s => !(s == "")

/-- The operator `a || b`: `a` when `a` is truthy, `b` otherwise. -/
def or (a b : Val) : Val :=
  if a.truthy then a else b

/-- String conversion as done by a template literal. -/
def toStr : Val → String
  | undefined => "undefined"
  | str s => s

/-- A default parameter `x = d`: the default replaces `undefined` only. -/
def withDefault (x d : Val) : Val :=
  match x with
  | undefined => d
  | v => v

end Val

/-! ## Configuration read by the commands -/

/-- The entries of `Cypress.env(...)` the file reads. -/
structure Env where
  username : Val
  password : Val
  NODE_ENV : Val

/-- The entries of `Cypress.config(...)` the file reads. -/
structure Config where
  baseUrl : Val

/-- The member `timeout` of the `Constants` object. -/
structure Timeout where
  maxTimeout : Nat

/-- The members of `new Constants()` the file reads.  The class is imported
from `../constants/constants`; its values are parameters here. -/
structure Constants where
  dashboardUrl : Val
  timeout : Timeout

/-! ## The overwritten `visit` command -/

/-- The function passed to `Cypress.Commands.overwrite('visit', ...)`:
`(originalFn, url = '', options) => { ...; return originalFn(url, options) }`.
The result type `ρ` of the original command is arbitrary. -/
def visitOverwrite {ω ρ : Type} (env : Env) (originalFn : Val → ω → ρ)
    (url : Val) (options : ω) : ρ :=
  let url := url.withDefault (Val.str "")
  let isDev := env.NODE_ENV == Val.str "dev"
  let url := if !isDev then Val.str ("/dashboard" ++ url.toStr) else url
  originalFn url options

/-! ## The command queue -/

/-- The body of the credentials request. -/
structure LoginBody where
  description : String
  responseType : String
  username : Val
  password : Val
  deriving DecidableEq, Repr

/-- The headers of the credentials request; `xApiCsrf` is the header
`'x-api-csrf'`. -/
structure Headers where
  xApiCsrf : Val
  deriving DecidableEq, Repr

/-- The argument of `cy.request`. -/
structure RequestOptions where
  method : String
  url : String
  body : LoginBody
  headers : Headers
  deriving DecidableEq, Repr

/-- The options argument of `cy.get`. -/
structure GetOptions where
  timeout : Nat
  deriving DecidableEq, Repr

/-- The runner commands the file issues.  `intercept m u a` is
`cy.intercept(m, u).as(a)`; `visit` is the runner's original `visit`;
`contains subject text` is `.contains(text)` chained on the element that
`cy.get(subject)` yielded. -/
inductive Cmd where
  | intercept (method url aliasName : String) : Cmd
  | visit (url : Val) (options : Val) : Cmd
  | wait (aliasName : String) : Cmd
  | request (options : RequestOptions) : Cmd
  | get (selector : String) (options : Option GetOptions) : Cmd
  | contains (subject text : String) : Cmd
  deriving DecidableEq, Repr

/-- What a run does that can be observed: it starts a command, or it reads
`document.cookie` (and finds the given string). -/
inductive Event where
  | cmd (c : Cmd) : Event
  | cookieRead (value : String) : Event
  deriving DecidableEq, Repr

/-- The browser and backend a run talks to.  `exec c s` is the state after
command `c` succeeded in state `s`, or `none` when `c` fails there (for
`wait`: the aliased request is not seen within the timeout; for `request`: the
response is an error; for `get` and `contains`: the check does not pass in
time).  `cookie s` is `document.cookie` in state `s`. -/
structure World (σ : Type) where
  exec : Cmd → σ → Option σ
  cookie : σ → String

/-- The result of running part of the queue: the events so far, and either the
command that failed or the value yielded together with the state reached. -/
structure Outcome (σ α : Type) where
  log : List Event
  value : Except Cmd (α × σ)

/-- A piece of the command queue. -/
def Cy (σ α : Type) : Type := σ → Outcome σ α

/-- A piece of the queue that does nothing and yields `a`. -/
def Cy.pure {σ α : Type} (a : α) : Cy σ α :=
  fun s => ⟨[], Except.ok (a, s)⟩

/-- Sequencing: `f` is run on what `m` yields, and only when `m` succeeded
(this is both the order of the queue and `.then(...)`). -/
def Cy.bind {σ α β : Type} (m : Cy σ α) (f : α → Cy σ β) : Cy σ β :=
  fun s =>
    match m s with
    | ⟨l, Except.error c⟩ => ⟨l, Except.error c⟩
    | ⟨l, Except.ok (a, s1)⟩ => ⟨l ++ (f a s1).log, (f a s1).value⟩

instance {σ : Type} : Monad (Cy σ) where
  pure := Cy.pure
  bind := Cy.bind

/-- Run one command: it is logged, and it succeeds or fails as the world
says. -/
def command {σ : Type} (W : World σ) (c : Cmd) : Cy σ Unit :=
  fun s =>
    match W.exec c s with
    | some s1 => ⟨[Event.cmd c], Except.ok ((), s1)⟩
    | none => ⟨[Event.cmd c], Except.error c⟩

/-- The expression `document.cookie`. -/
def documentCookie {σ : Type} (W : World σ) : Cy σ String :=
  fun s => ⟨[Event.cookieRead (W.cookie s)], Except.ok (W.cookie s, s)⟩

/-- The runner's original `visit` command. -/
def originalVisit {σ : Type} (W : World σ) (url : Val) (options : Val) : Cy σ Unit :=
  command W (Cmd.visit url options)

/-- The command `cy.visit` as the support file leaves it: overwritten. -/
def visit {σ : Type} (W : World σ) (env : Env) (url : Val) (options : Val) : Cy σ Unit :=
  visitOverwrite env (originalVisit W) url options

/-- The command `cy.get(selector, options)`; it yields the element found,
identified here by its selector. -/
def get {σ : Type} (W : World σ) (selector : String) (options : Option GetOptions) :
    Cy σ String :=
  do
    command W (Cmd.get selector options)
    return selector

/-- The address the overwritten `visit` hands to the original `visit` when it
is called with `url`. -/
def navTarget (env : Env) (url : Val) : Val :=
  visitOverwrite env (fun (u : Val) (_ : Unit) => u) url ()

/-! ## The `login` command -/

/-- The argument of `login`; a field is `undefined` when it is omitted. -/
structure LoginParams where
  url : Val := Val.undefined
  username : Val := Val.undefined
  password : Val := Val.undefined
  deriving DecidableEq, Repr

/-- What `login` reads from its surroundings: the constants, the environment,
the runner configuration and the function `cookie.parse` of the `cookie`
package (`cookieParse c name` is the property `name` of `cookie.parse(c)`,
`undefined` when the object has no such property). -/
structure Setup where
  constants : Constants
  env : Env
  config : Config
  cookieParse : String → String → Val

/-- The line `const url = params.url || constants.dashboardUrl`. -/
def resolvedUrl (S : Setup) (params : LoginParams) : Val :=
  params.url.or S.constants.dashboardUrl

/-- The line `const username = params.username || Cypress.env('username')`. -/
def resolvedUsername (S : Setup) (params : LoginParams) : Val :=
  params.username.or S.env.username

/-- The line `const password = params.password || Cypress.env('password')`. -/
def resolvedPassword (S : Setup) (params : LoginParams) : Val :=
  params.password.or S.env.password

/-- The command `login`: `(params = {}) => { ... }`.  `arg` is `none` when the
command is called without an argument. -/
def login {σ : Type} (W : World σ) (S : Setup) (arg : Option LoginParams) : Cy σ Unit :=
  let params := arg.getD {}
  let url := resolvedUrl S params
  let username := resolvedUsername S params
  let password := resolvedPassword S params
  let isDev := S.env.NODE_ENV == Val.str "dev"
  let _baseUrl :=
    if isDev then S.config.baseUrl else Val.str (S.config.baseUrl.toStr ++ "/dashboard")
  do
    command W (Cmd.intercept "GET" "/v3-public/authProviders" "authProviders")
    visit W S.env (Val.str "/auth/login") Val.undefined
    command W (Cmd.wait "@authProviders")
    let CSRF := S.cookieParse (← documentCookie W) "CSRF"
    command W (Cmd.request
      { method := "POST"
        url := "/v3-public/localProviders/local?action=login"
        body :=
          { description := "UI session"
            responseType := "cookie"
            username := username
            password := password }
        headers := { xApiCsrf := CSRF } })
    visit W S.env url Val.undefined
    let _spinner ← get W ".initial-load-spinner"
      (some { timeout := S.constants.timeout.maxTimeout })
    let productName ← get W ".dashboard-content .product-name" none
    command W (Cmd.contains productName "Harvester")

/-! ## The `uncaught:exception` handler -/

/-- The handler `(err, runable) => { return false; }`. -/
def uncaughtException {ε ρ : Type} (_err : ε) (_runable : ρ) : Bool :=
  false

/-- How the runner treats the value returned by an `uncaught:exception`
handler: the test fails on the exception unless the handler returned
`false`. -/
def failsOnUncaught (handlerResult : Bool) : Bool :=
  handlerResult

/-! ## The `test:after:run` handler -/

/-- The method `split` of a string, for a separator of one character, on the
characters of the string. -/
def splitChars (sep : Char) : List Char → List (List Char)
  | [] => [[]]
  | c :: cs =>
    if c = sep then [] :: splitChars sep cs
    else
      match splitChars sep cs with
      | [] => [[c]]
      | seg :: segs => (c :: seg) :: segs

/-- The call `s.split(sep)` for a separator of one character. -/
def jsSplit (s : String) (sep : Char) : List String :=
  (splitChars sep s.data).map String.mk

/-- The call `xs.slice(start, stop)`: a negative index counts from the end,
and both indices are clamped to the array. -/
def jsSlice {α : Type} (xs : List α) (start stop : Int) : List α :=
  let n : Int := xs.length
  let k : Int := if start < 0 then max (n + start) 0 else min start n
  let e : Int := if stop < 0 then max (n + stop) 0 else min stop n
  (xs.drop k.toNat).take (e - k).toNat

/-- The call `xs.join(sep)`. -/
def jsJoin (xs : List String) (sep : String) : String :=
  sep.intercalate xs

/-- The fields of `Cypress.spec` the handler reads. -/
structure Spec where
  relative : String
  name : String
  deriving DecidableEq, Repr

/-- The fields of the finished test the handler reads. -/
structure Test where
  state : String
  title : String
  deriving DecidableEq, Repr

/-- The suite two levels above a test, as far as the handler reads it. -/
structure OuterSuite where
  title : String
  deriving DecidableEq, Repr

/-- The suite a test belongs to: its title and its own parent, which the root
suite does not have. -/
structure Suite where
  title : String
  parent : Option OuterSuite
  deriving DecidableEq, Repr

/-- The runnable handed to the handler.  Every test belongs to a suite (the
root suite when it is in no `describe` block). -/
structure Runnable where
  parent : Suite
  deriving DecidableEq, Repr

/-- A call `addContext({ test }, context)` of the reporting library. -/
structure AddContextCall where
  test : Test
  context : String
  deriving DecidableEq, Repr

/-- The expression `runnable.parent?.parent?.title`. -/
def outerTitle (runnable : Runnable) : Val :=
  match runnable.parent.parent with
  | none => Val.undefined
  | some g => Val.str g.title

/-- The handler of `test:after:run`; the result lists its calls of
`addContext`. -/
def testAfterRun (spec : Spec) (test : Test) (runnable : Runnable) : List AddContextCall :=
  if test.state = "failed" then
    let dir := spec.relative
    let specDir := jsJoin (jsSlice (jsSplit dir '/') 1 (-1)) "/"
    let it := test.title
    let fileName :=
      if (outerTitle runnable).truthy then
        let describe := (outerTitle runnable).toStr
        let context := runnable.parent.title
        describe ++ " -- " ++ context ++ " -- " ++ it ++ " (failed).png"
      else
        runnable.parent.title ++ " -- " ++ test.title ++ " (failed).png"
    let screenshot := "assets/" ++ specDir ++ "/" ++ spec.name ++ "/" ++ fileName
    [{ test := test, context := screenshot }]
  else
    []

/-! ## Reading a run -/

/-- The state in which the wait for `@authProviders` resolves, when the run
gets that far: the interception is registered, the login page is visited and
the wait succeeds. -/
def afterWait {σ : Type} (W : World σ) (env : Env) (s : σ) : Option σ :=
  match W.exec (Cmd.intercept "GET" "/v3-public/authProviders" "authProviders") s with
  | none => none
  | some s1 =>
    match W.exec (Cmd.visit (navTarget env (Val.str "/auth/login")) Val.undefined) s1 with
    | none => none
    | some s2 => W.exec (Cmd.wait "@authProviders") s2

/-- The state after the navigation that follows the credentials request, when
the run gets that far. -/
def afterNavigation {σ : Type} (W : World σ) (S : Setup) (arg : Option LoginParams)
    (s : σ) : Option σ :=
  match afterWait W S.env s with
  | none => none
  | some s3 =>
    match W.exec (Cmd.request
        { method := "POST"
          url := "/v3-public/localProviders/local?action=login"
          body :=
            { description := "UI session"
              responseType := "cookie"
              username := resolvedUsername S (arg.getD {})
              password := resolvedPassword S (arg.getD {}) }
          headers := { xApiCsrf := S.cookieParse (W.cookie s3) "CSRF" } }) s3 with
    | none => none
    | some s5 =>
      W.exec (Cmd.visit (navTarget S.env (resolvedUrl S (arg.getD {}))) Val.undefined) s5

/-- The request of an event, when the event is a `cy.request`. -/
def Event.request? : Event → Option RequestOptions
  | Event.cmd (Cmd.request o) => some o
  | _ => none

/-- The address of an event, when the event is a navigation. -/
def Event.visited? : Event → Option Val
  | Event.cmd (Cmd.visit u _) => some u
  | _ => none

/-- The cookie string of an event, when the event reads `document.cookie`. -/
def Event.cookie? : Event → Option String
  | Event.cookieRead c => some c
  | _ => none

/-- The cookie strings a run read, in order. -/
def cookieReads (log : List Event) : List String :=
  log.filterMap Event.cookie?

/-- The requests of a run, in order. -/
def requests (log : List Event) : List RequestOptions :=
  log.filterMap Event.request?

/-- The addresses a run navigated to, in order. -/
def navigations (log : List Event) : List Val :=
  log.filterMap Event.visited?

/-! ## A browser for examples -/

/-- A page that does not change while a run lasts: its cookie string, the
aliases whose request is seen, whether the backend accepts the credentials,
the selectors that match an element, and for which selector the element
contains which text. -/
structure Page where
  cookie : String
  seen : List String
  accepts : Bool
  present : List String
  texts : List (String × String)
  deriving DecidableEq, Repr

/-- The browser on a page that does not change.  `cy.get` passes exactly when
the selector matches an element, which is the existence check the command
carries when no other assertion is chained on it; `contains` passes exactly
when the element contains the text. -/
def staticBrowser : World Page where
  exec c p :=
    match c with
    | Cmd.intercept _ _ _ => some p
    | Cmd.visit _ _ => some p
    | Cmd.wait a => if p.seen.contains a then some p else none
    | Cmd.request _ => if p.accepts then some p else none
    | Cmd.get sel _ => if p.present.contains sel then some p else none
    | Cmd.contains subject text => if p.texts.contains (subject, text) then some p else none
  cookie p := p.cookie

/-- Drop the blanks at the start. -/
def dropBlanks : List Char → List Char
  | [] => []
  | c :: cs => if c = ' ' then dropBlanks cs else c :: cs

/-- Split `name=value` at the first `=`. -/
def splitPair : List Char → Option (List Char × List Char)
  | [] => none
  | c :: cs =>
    if c = '=' then some ([], cs)
    else
      match splitPair cs with
      | none => none
      | some (k, v) => some (c :: k, v)

/-- A reader of cookie strings `name=value; name=value` with plain names and
values, for the examples: the value of the first pair called `name`. -/
def plainCookieParse (c : String) (name : String) : Val :=
  let pairs := (splitChars ';' c.data).filterMap (fun seg => splitPair (dropBlanks seg))
  match pairs.find? (fun kv => kv.1 = name.data) with
  | none => Val.undefined
  | some kv => Val.str (String.mk kv.2)

/-- A setup in dev mode. -/
def devSetup : Setup where
  constants := { dashboardUrl := Val.str "/c/local/harvester", timeout := { maxTimeout := 1800000 } }
  env := { username := Val.str "admin", password := Val.str "password1234", NODE_ENV := Val.str "dev" }
  config := { baseUrl := Val.str "https://localhost:8005" }
  cookieParse := plainCookieParse

/-- The same setup outside dev mode. -/
def prodSetup : Setup where
  constants := { dashboardUrl := Val.str "/c/local/harvester", timeout := { maxTimeout := 1800000 } }
  env := { username := Val.str "admin", password := Val.str "password1234", NODE_ENV := Val.undefined }
  config := { baseUrl := Val.str "https://localhost:8005" }
  cookieParse := plainCookieParse

/-- A page on which every step of `login` passes; the loading indicator is
(still) in the document. -/
def loadedPage : Page where
  cookie := "R_LOCALE=en-us; CSRF=3f2a9c"
  seen := ["@authProviders"]
  accepts := true
  present := [".initial-load-spinner", ".dashboard-content .product-name"]
  texts := [(".dashboard-content .product-name", "Harvester")]

/-- A page on which the loading indicator is gone and the product name is
shown. -/
def spinnerGonePage : Page where
  cookie := "R_LOCALE=en-us; CSRF=3f2a9c"
  seen := ["@authProviders"]
  accepts := true
  present := [".dashboard-content .product-name"]
  texts := [(".dashboard-content .product-name", "Harvester")]

/-- A page on which the request to `authProviders` is never seen. -/
def silentPage : Page where
  cookie := ""
  seen := []
  accepts := true
  present := []
  texts := []

/-- A page whose backend rejects the credentials. -/
def rejectingPage : Page where
  cookie := "R_LOCALE=en-us; CSRF=3f2a9c"
  seen := ["@authProviders"]
  accepts := false
  present := [".initial-load-spinner", ".dashboard-content .product-name"]
  texts := [(".dashboard-content .product-name", "Harvester")]

/-- A page on which the loading indicator is in the document and the product
name is not. -/
def shellPage : Page where
  cookie := "R_LOCALE=en-us; CSRF=3f2a9c"
  seen := ["@authProviders"]
  accepts := true
  present := [".initial-load-spinner"]
  texts := []

/-- A page on which the product-name element does not contain `Harvester`. -/
def otherProductPage : Page where
  cookie := "R_LOCALE=en-us; CSRF=3f2a9c"
  seen := ["@authProviders"]
  accepts := true
  present := [".initial-load-spinner", ".dashboard-content .product-name"]
  texts := [(".dashboard-content .product-name", "Rancher")]

/-- A page whose cookie string has no field `CSRF`. -/
def noCsrfPage : Page where
  cookie := "R_LOCALE=en-us"
  seen := ["@authProviders"]
  accepts := true
  present := [".initial-load-spinner", ".dashboard-content .product-name"]
  texts := [(".dashboard-content .product-name", "Harvester")]

end Commands

namespace Commands

/-! ## Running the queue -/

theorem command_run {σ : Type} (W : World σ) (c : Cmd) (s : σ) :
    command W c s =
      match W.exec c s with
      | some s1 => ⟨[Event.cmd c], Except.ok ((), s1)⟩
      | none => ⟨[Event.cmd c], Except.error c⟩ := rfl

theorem command_bind_run {σ β : Type} (W : World σ) (c : Cmd) (f : Unit → Cy σ β) (s : σ) :
    (command W c >>= f) s =
      match W.exec c s with
      | some s1 => ⟨Event.cmd c :: (f () s1).log, (f () s1).value⟩
      | none => ⟨[Event.cmd c], Except.error c⟩ := by
  show Cy.bind (command W c) f s = _
  unfold Cy.bind command
  cases W.exec c s <;> rfl

theorem documentCookie_bind_run {σ β : Type} (W : World σ) (f : String → Cy σ β) (s : σ) :
    (documentCookie W >>= f) s =
      ⟨Event.cookieRead (W.cookie s) :: (f (W.cookie s) s).log, (f (W.cookie s) s).value⟩ := rfl

theorem get_bind_run {σ β : Type} (W : World σ) (sel : String) (o : Option GetOptions)
    (f : String → Cy σ β) (s : σ) :
    (get W sel o >>= f) s =
      match W.exec (Cmd.get sel o) s with
      | some s1 => ⟨Event.cmd (Cmd.get sel o) :: (f sel s1).log, (f sel s1).value⟩
      | none => ⟨[Event.cmd (Cmd.get sel o)], Except.error (Cmd.get sel o)⟩ := by
  show Cy.bind (Cy.bind (command W (Cmd.get sel o)) (fun _ => Cy.pure sel)) f s = _
  unfold Cy.bind command Cy.pure
  cases W.exec (Cmd.get sel o) s <;> simp

theorem visit_eq {σ : Type} (W : World σ) (env : Env) (url options : Val) :
    visit W env url options = command W (Cmd.visit (navTarget env url) options) := rfl

/-- The outcome of `login`, step by step. -/
theorem login_run {σ : Type} (W : World σ) (S : Setup) (arg : Option LoginParams) (s : σ) :
    login W S arg s =
      let c1 := Cmd.intercept "GET" "/v3-public/authProviders" "authProviders"
      let c2 := Cmd.visit (navTarget S.env (Val.str "/auth/login")) Val.undefined
      let c3 := Cmd.wait "@authProviders"
      let c6 := Cmd.visit (navTarget S.env (resolvedUrl S (arg.getD {}))) Val.undefined
      let c7 := Cmd.get ".initial-load-spinner"
        (some { timeout := S.constants.timeout.maxTimeout })
      let c8 := Cmd.get ".dashboard-content .product-name" none
      let c9 := Cmd.contains ".dashboard-content .product-name" "Harvester"
      match W.exec c1 s with
      | none => ⟨[Event.cmd c1], Except.error c1⟩
      | some s1 =>
      match W.exec c2 s1 with
      | none => ⟨[Event.cmd c1, Event.cmd c2], Except.error c2⟩
      | some s2 =>
      match W.exec c3 s2 with
      | none => ⟨[Event.cmd c1, Event.cmd c2, Event.cmd c3], Except.error c3⟩
      | some s3 =>
      let e4 := Event.cookieRead (W.cookie s3)
      let c5 := Cmd.request
        { method := "POST"
          url := "/v3-public/localProviders/local?action=login"
          body :=
            { description := "UI session"
              responseType := "cookie"
              username := resolvedUsername S (arg.getD {})
              password := resolvedPassword S (arg.getD {}) }
          headers := { xApiCsrf := S.cookieParse (W.cookie s3) "CSRF" } }
      match W.exec c5 s3 with
      | none => ⟨[Event.cmd c1, Event.cmd c2, Event.cmd c3, e4, Event.cmd c5], Except.error c5⟩
      | some s5 =>
      match W.exec c6 s5 with
      | none =>
        ⟨[Event.cmd c1, Event.cmd c2, Event.cmd c3, e4, Event.cmd c5, Event.cmd c6],
          Except.error c6⟩
      | some s6 =>
      match W.exec c7 s6 with
      | none =>
        ⟨[Event.cmd c1, Event.cmd c2, Event.cmd c3, e4, Event.cmd c5, Event.cmd c6,
            Event.cmd c7], Except.error c7⟩
      | some s7 =>
      match W.exec c8 s7 with
      | none =>
        ⟨[Event.cmd c1, Event.cmd c2, Event.cmd c3, e4, Event.cmd c5, Event.cmd c6,
            Event.cmd c7, Event.cmd c8], Except.error c8⟩
      | some s8 =>
      match W.exec c9 s8 with
      | none =>
        ⟨[Event.cmd c1, Event.cmd c2, Event.cmd c3, e4, Event.cmd c5, Event.cmd c6,
            Event.cmd c7, Event.cmd c8, Event.cmd c9], Except.error c9⟩
      | some s9 =>
        ⟨[Event.cmd c1, Event.cmd c2, Event.cmd c3, e4, Event.cmd c5, Event.cmd c6,
            Event.cmd c7, Event.cmd c8, Event.cmd c9], Except.ok ((), s9)⟩ := by
  unfold login
  simp only [visit_eq, command_bind_run, documentCookie_bind_run, get_bind_run, command_run]
  cases W.exec (Cmd.intercept "GET" "/v3-public/authProviders" "authProviders") s with
  | none => rfl
  | some s1 =>
  dsimp only
  cases W.exec (Cmd.visit (navTarget S.env (Val.str "/auth/login")) Val.undefined) s1 with
  | none => rfl
  | some s2 =>
  dsimp only
  cases W.exec (Cmd.wait "@authProviders") s2 with
  | none => rfl
  | some s3 =>
  dsimp only
  cases W.exec (Cmd.request
        { method := "POST"
          url := "/v3-public/localProviders/local?action=login"
          body :=
            { description := "UI session"
              responseType := "cookie"
              username := resolvedUsername S (arg.getD {})
              password := resolvedPassword S (arg.getD {}) }
          headers := { xApiCsrf := S.cookieParse (W.cookie s3) "CSRF" } }) s3 with
  | none => rfl
  | some s5 =>
  dsimp only
  cases W.exec (Cmd.visit (navTarget S.env (resolvedUrl S (arg.getD {}))) Val.undefined) s5 with
  | none => rfl
  | some s6 =>
  dsimp only
  cases W.exec (Cmd.get ".initial-load-spinner"
        (some { timeout := S.constants.timeout.maxTimeout })) s6 with
  | none => rfl
  | some s7 =>
  dsimp only
  cases W.exec (Cmd.get ".dashboard-content .product-name" none) s7 with
  | none => rfl
  | some s8 =>
  dsimp only
  cases W.exec (Cmd.contains ".dashboard-content .product-name" "Harvester") s8 with
  | none => rfl
  | some s9 => rfl


/-! ## Arrays -/

/-- The call `xs.slice(1, -1)` drops the first and the last element. -/
theorem jsSlice_one_neg_one {α : Type} (xs : List α) :
    jsSlice xs 1 (-1) = (xs.drop 1).dropLast := by
  cases xs with
  | nil => rfl
  | cons x t =>
    have hk : min (1 : Int) ((t.length : Int) + 1) = 1 := by omega
    have he : max ((t.length : Int) + 1 + -1) 0 = (t.length : Int) := by omega
    simp only [jsSlice, List.length_cons, Nat.cast_add, Nat.cast_one, hk, he]
    simp [List.dropLast_eq_take]

/-! ## The parameters of `login` -/

/-- Claim C1, as stated, fails: a `url` that is supplied as the empty string
is not the resolved target; the default dashboard address is. -/
theorem login_url_supplied_empty :
    ({ url := Val.str "" } : LoginParams).url ≠ Val.undefined ∧
      resolvedUrl devSetup { url := Val.str "" } ≠ ({ url := Val.str "" } : LoginParams).url ∧
      resolvedUrl devSetup { url := Val.str "" } = Val.str "/c/local/harvester" := by
  decide

/-- Claim C1, amended: a parameter that is supplied as a non-empty string is
the resolved value; a parameter that is omitted or is the empty string resolves
to its default (`constants.dashboardUrl`, `Cypress.env('username')`,
`Cypress.env('password')`); and `login()` runs as `login({})`. -/
theorem login_params_resolved (S : Setup) (p : LoginParams) :
    (∀ u : String, u ≠ "" → p.url = Val.str u → resolvedUrl S p = Val.str u) ∧
    (p.url = Val.undefined ∨ p.url = Val.str "" → resolvedUrl S p = S.constants.dashboardUrl) ∧
    (∀ u : String, u ≠ "" → p.username = Val.str u → resolvedUsername S p = Val.str u) ∧
    (p.username = Val.undefined ∨ p.username = Val.str "" →
      resolvedUsername S p = S.env.username) ∧
    (∀ u : String, u ≠ "" → p.password = Val.str u → resolvedPassword S p = Val.str u) ∧
    (p.password = Val.undefined ∨ p.password = Val.str "" →
      resolvedPassword S p = S.env.password) ∧
    (∀ (σ : Type) (W : World σ) (s : σ), login W S none s = login W S (some {}) s) := by
  refine ⟨?_, ?_, ?_, ?_, ?_, ?_, ?_⟩
  · intro u hu h
    simp [resolvedUrl, Val.or, Val.truthy, h, hu]
  · rintro (h | h) <;> simp [resolvedUrl, Val.or, Val.truthy, h]
  · intro u hu h
    simp [resolvedUsername, Val.or, Val.truthy, h, hu]
  · rintro (h | h) <;> simp [resolvedUsername, Val.or, Val.truthy, h]
  · intro u hu h
    simp [resolvedPassword, Val.or, Val.truthy, h, hu]
  · rintro (h | h) <;> simp [resolvedPassword, Val.or, Val.truthy, h]
  · intro σ W s
    rfl

/-- Claim C1, amended, on
`login({url: '/settings', username: 'alice', password: 'secret'})` and on
`login({url: '', password: ''})` in the dev setup. -/
theorem login_params_resolved_witness :
    (resolvedUrl devSetup
        { url := Val.str "/settings", username := Val.str "alice", password := Val.str "secret" } =
        Val.str "/settings" ∧
      resolvedUsername devSetup
        { url := Val.str "/settings", username := Val.str "alice", password := Val.str "secret" } =
        Val.str "alice" ∧
      resolvedPassword devSetup
        { url := Val.str "/settings", username := Val.str "alice", password := Val.str "secret" } =
        Val.str "secret") ∧
    (resolvedUrl devSetup { url := Val.str "", password := Val.str "" } =
        Val.str "/c/local/harvester" ∧
      resolvedUsername devSetup { url := Val.str "", password := Val.str "" } =
        Val.str "admin" ∧
      resolvedPassword devSetup { url := Val.str "", password := Val.str "" } =
        Val.str "password1234") :=
  ⟨⟨(login_params_resolved devSetup
        { url := Val.str "/settings", username := Val.str "alice", password := Val.str "secret" }).1
        "/settings" (by decide) rfl,
      (login_params_resolved devSetup
        { url := Val.str "/settings", username := Val.str "alice", password := Val.str "secret" }
        ).2.2.1 "alice" (by decide) rfl,
      (login_params_resolved devSetup
        { url := Val.str "/settings", username := Val.str "alice", password := Val.str "secret" }
        ).2.2.2.2.1 "secret" (by decide) rfl⟩,
    ⟨(login_params_resolved devSetup { url := Val.str "", password := Val.str "" }).2.1
        (Or.inr rfl),
      (login_params_resolved devSetup { url := Val.str "", password := Val.str "" }).2.2.2.1
        (Or.inl rfl),
      (login_params_resolved devSetup { url := Val.str "", password := Val.str "" }).2.2.2.2.2.1
        (Or.inr rfl)⟩⟩

/-! ## The overwritten `visit` -/

/-- Claim C5: the overwritten `visit` is one call of the original `visit`,
with the options it was given and with the address `'/dashboard' + url` outside
dev mode and `url` in dev mode, an omitted `url` counting as `''`; its result
is the result of that call.  The original command is arbitrary, so with a
command that acts on the browser the equation says that it acts once. -/
theorem visitOverwrite_calls_original {ω ρ : Type} (env : Env) (originalFn : Val → ω → ρ)
    (options : ω) :
    (env.NODE_ENV = Val.str "dev" →
      (∀ u : String, visitOverwrite env originalFn (Val.str u) options =
        originalFn (Val.str u) options) ∧
      visitOverwrite env originalFn Val.undefined options = originalFn (Val.str "") options) ∧
    (env.NODE_ENV ≠ Val.str "dev" →
      (∀ u : String, visitOverwrite env originalFn (Val.str u) options =
        originalFn (Val.str ("/dashboard" ++ u)) options) ∧
      visitOverwrite env originalFn Val.undefined options =
        originalFn (Val.str ("/dashboard" ++ "")) options) := by
  constructor
  · intro h
    simp [visitOverwrite, h, Val.withDefault]
  · intro h
    simp [visitOverwrite, h, Val.withDefault, Val.toStr]

/-- Claim C5 on `cy.visit('/settings')` in both modes, the original command
being the one that records its arguments. -/
theorem visitOverwrite_calls_original_witness :
    visitOverwrite devSetup.env (fun u (o : Val) => [(u, o)]) (Val.str "/settings")
        Val.undefined = [(Val.str "/settings", Val.undefined)] ∧
      visitOverwrite prodSetup.env (fun u (o : Val) => [(u, o)]) (Val.str "/settings")
        Val.undefined = [(Val.str "/dashboard/settings", Val.undefined)] :=
  ⟨((visitOverwrite_calls_original devSetup.env (fun u (o : Val) => [(u, o)])
      Val.undefined).1 rfl).1 "/settings",
    ((visitOverwrite_calls_original prodSetup.env (fun u (o : Val) => [(u, o)])
      Val.undefined).2 (by decide)).1 "/settings"⟩

/-! ## Uncaught exceptions -/

/-- Claim C10: for every error and every runnable the `uncaught:exception`
handler returns `false`, so the runner does not fail the test on the
exception; the handler is a total function that does not look at its
arguments. -/
theorem uncaughtException_false {ε ρ : Type} (err : ε) (runable : ρ) :
    uncaughtException err runable = false ∧
      failsOnUncaught (uncaughtException err runable) = false :=
  ⟨rfl, rfl⟩

/-! ## The screenshot of a failed test -/

/-- Claim C9: for a test in state `failed` the handler calls the reporting
function once, on the test, with the path
`assets/<spec-directory>/<spec-file>/<file name>`: the directory is the
relative path of the spec without its first and its last segment, the file
name has three parts when the suite two levels up has a title that is not
empty and two parts otherwise.  For a test in another state the handler calls
nothing. -/
theorem testAfterRun_screenshot (spec : Spec) (test : Test) (runnable : Runnable) :
    (test.state = "failed" →
      (∀ g : OuterSuite, runnable.parent.parent = some g → g.title ≠ "" →
        testAfterRun spec test runnable =
          [{ test := test
             context :=
              "assets/" ++ "/".intercalate (((jsSplit spec.relative '/').drop 1).dropLast) ++
                "/" ++ spec.name ++ "/" ++
                (g.title ++ " -- " ++ runnable.parent.title ++ " -- " ++ test.title ++
                  " (failed).png") }]) ∧
      (runnable.parent.parent = none ∨ runnable.parent.parent = some { title := "" } →
        testAfterRun spec test runnable =
          [{ test := test
             context :=
              "assets/" ++ "/".intercalate (((jsSplit spec.relative '/').drop 1).dropLast) ++
                "/" ++ spec.name ++ "/" ++
                (runnable.parent.title ++ " -- " ++ test.title ++ " (failed).png") }])) ∧
    (test.state ≠ "failed" → testAfterRun spec test runnable = []) := by
  refine ⟨fun hs => ⟨?_, ?_⟩, ?_⟩
  · intro g hg ht
    simp [testAfterRun, hs, outerTitle, hg, Val.truthy, Val.toStr, ht, jsJoin,
      jsSlice_one_neg_one]
  · rintro (hg | hg) <;>
      simp [testAfterRun, hs, outerTitle, hg, Val.truthy, jsJoin, jsSlice_one_neg_one]
  · intro hs
    simp [testAfterRun, hs]

/-- Claim C9 on three tests of `cypress/e2e/testcases/vm.spec.ts`: a failed
one inside `describe` and `context`, a failed one inside `describe` only, and
one that passed. -/
theorem testAfterRun_screenshot_witness :
    testAfterRun { relative := "cypress/e2e/testcases/vm.spec.ts", name := "vm.spec.ts" }
        { state := "failed", title := "creates a vm" }
        { parent := { title := "with image", parent := some { title := "VM" } } } =
      [{ test := { state := "failed", title := "creates a vm" }
         context :=
          "assets/e2e/testcases/vm.spec.ts/VM -- with image -- creates a vm (failed).png" }] ∧
    testAfterRun { relative := "cypress/e2e/testcases/vm.spec.ts", name := "vm.spec.ts" }
        { state := "failed", title := "creates a vm" }
        { parent := { title := "VM", parent := some { title := "" } } } =
      [{ test := { state := "failed", title := "creates a vm" }
         context := "assets/e2e/testcases/vm.spec.ts/VM -- creates a vm (failed).png" }] ∧
    testAfterRun { relative := "cypress/e2e/testcases/vm.spec.ts", name := "vm.spec.ts" }
        { state := "passed", title := "creates a vm" }
        { parent := { title := "VM", parent := some { title := "" } } } = [] :=
  ⟨((testAfterRun_screenshot
      { relative := "cypress/e2e/testcases/vm.spec.ts", name := "vm.spec.ts" }
      { state := "failed", title := "creates a vm" }
      { parent := { title := "with image", parent := some { title := "VM" } } }).1 rfl).1
      { title := "VM" } rfl (by decide),
    ((testAfterRun_screenshot
      { relative := "cypress/e2e/testcases/vm.spec.ts", name := "vm.spec.ts" }
      { state := "failed", title := "creates a vm" }
      { parent := { title := "VM", parent := some { title := "" } } }).1 rfl).2 (Or.inr rfl),
    (testAfterRun_screenshot
      { relative := "cypress/e2e/testcases/vm.spec.ts", name := "vm.spec.ts" }
      { state := "passed", title := "creates a vm" }
      { parent := { title := "VM", parent := some { title := "" } } }).2 (by decide)⟩

/-! ## The credentials request -/

/-- Claim C2: a run of `login` issues no request when it does not get past
the wait for `@authProviders`, and otherwise exactly one: a `POST` to
`/v3-public/localProviders/local?action=login` with the body
`{description: 'UI session', responseType: 'cookie', username, password}` of
the resolved credentials and the header `x-api-csrf` set to the field `CSRF`
of the parse of `document.cookie` in the state in which the wait resolved; that
cookie string is the only one the run reads. -/
theorem login_request {σ : Type} (W : World σ) (S : Setup) (arg : Option LoginParams)
    (s : σ) :
    requests (login W S arg s).log =
        (match afterWait W S.env s with
        | none => []
        | some s3 =>
          [{ method := "POST"
             url := "/v3-public/localProviders/local?action=login"
             body :=
              { description := "UI session"
                responseType := "cookie"
                username := resolvedUsername S (arg.getD {})
                password := resolvedPassword S (arg.getD {}) }
             headers := { xApiCsrf := S.cookieParse (W.cookie s3) "CSRF" } }]) ∧
      cookieReads (login W S arg s).log =
        (match afterWait W S.env s with
        | none => []
        | some s3 => [W.cookie s3]) := by
  simp only [login_run, afterWait]
  repeat' split
  all_goals simp_all [requests, cookieReads, Event.request?, Event.cookie?]

/-! ## The order of the steps -/

/-- Claim C3: a run of `login` that succeeds consists of exactly these events,
in this order: the interception of `GET /v3-public/authProviders` is
registered, the login page `/auth/login` is visited (through the overwritten
`visit`), the wait for `@authProviders` resolves, `document.cookie` is read in
the state the wait left, the credentials are posted with the token parsed from
that string, the target is visited, and the two elements are checked. -/
theorem login_order {σ : Type} (W : World σ) (S : Setup) (arg : Option LoginParams)
    (s sf : σ) (h : (login W S arg s).value = Except.ok ((), sf)) :
    ∃ s3 : σ, afterWait W S.env s = some s3 ∧
      (login W S arg s).log =
        [Event.cmd (Cmd.intercept "GET" "/v3-public/authProviders" "authProviders"),
          Event.cmd (Cmd.visit (navTarget S.env (Val.str "/auth/login")) Val.undefined),
          Event.cmd (Cmd.wait "@authProviders"),
          Event.cookieRead (W.cookie s3),
          Event.cmd (Cmd.request
            { method := "POST"
              url := "/v3-public/localProviders/local?action=login"
              body :=
                { description := "UI session"
                  responseType := "cookie"
                  username := resolvedUsername S (arg.getD {})
                  password := resolvedPassword S (arg.getD {}) }
              headers := { xApiCsrf := S.cookieParse (W.cookie s3) "CSRF" } }),
          Event.cmd (Cmd.visit (navTarget S.env (resolvedUrl S (arg.getD {}))) Val.undefined),
          Event.cmd (Cmd.get ".initial-load-spinner"
            (some { timeout := S.constants.timeout.maxTimeout })),
          Event.cmd (Cmd.get ".dashboard-content .product-name" none),
          Event.cmd (Cmd.contains ".dashboard-content .product-name" "Harvester")] := by
  revert h
  simp only [login_run, afterWait]
  repeat' split
  all_goals simp_all

/-- Claim C3 on `login()` in the dev setup, on a page where every step
passes. -/
theorem login_order_witness :
    ∃ s3 : Page, afterWait staticBrowser devSetup.env loadedPage = some s3 ∧
      (login staticBrowser devSetup none loadedPage).log =
        [Event.cmd (Cmd.intercept "GET" "/v3-public/authProviders" "authProviders"),
          Event.cmd (Cmd.visit (navTarget devSetup.env (Val.str "/auth/login")) Val.undefined),
          Event.cmd (Cmd.wait "@authProviders"),
          Event.cookieRead (staticBrowser.cookie s3),
          Event.cmd (Cmd.request
            { method := "POST"
              url := "/v3-public/localProviders/local?action=login"
              body :=
                { description := "UI session"
                  responseType := "cookie"
                  username := resolvedUsername devSetup ((none : Option LoginParams).getD {})
                  password := resolvedPassword devSetup ((none : Option LoginParams).getD {}) }
              headers :=
                { xApiCsrf := devSetup.cookieParse (staticBrowser.cookie s3) "CSRF" } }),
          Event.cmd (Cmd.visit
            (navTarget devSetup.env (resolvedUrl devSetup ((none : Option LoginParams).getD {})))
            Val.undefined),
          Event.cmd (Cmd.get ".initial-load-spinner"
            (some { timeout := devSetup.constants.timeout.maxTimeout })),
          Event.cmd (Cmd.get ".dashboard-content .product-name" none),
          Event.cmd (Cmd.contains ".dashboard-content .product-name" "Harvester")] :=
  login_order staticBrowser devSetup none loadedPage loadedPage rfl

/-! ## The addresses visited -/

theorem navTarget_dev (env : Env) (h : env.NODE_ENV = Val.str "dev") (u : String) :
    navTarget env (Val.str u) = Val.str u := by
  simp [navTarget, visitOverwrite, h, Val.withDefault]

theorem navTarget_not_dev (env : Env) (h : env.NODE_ENV ≠ Val.str "dev") (u : String) :
    navTarget env (Val.str u) = Val.str ("/dashboard" ++ u) := by
  simp [navTarget, visitOverwrite, h, Val.withDefault, Val.toStr]

theorem resolvedUrl_of_nonempty (S : Setup) (p : LoginParams) (u : String) (hu : u ≠ "")
    (hp : p.url = Val.str u) : resolvedUrl S p = Val.str u := by
  simp [resolvedUrl, Val.or, Val.truthy, hp, hu]

/-- Claim C4, as stated, fails for the empty target: `login({url: ''})` goes
to the default dashboard address after the login, in dev mode and outside
it. -/
theorem login_navigation_empty_url :
    navigations (login staticBrowser devSetup (some { url := Val.str "" }) loadedPage).log =
        [Val.str "/auth/login", Val.str "/c/local/harvester"] ∧
      navigations (login staticBrowser devSetup (some { url := Val.str "" }) loadedPage).log ≠
        [Val.str "/auth/login", Val.str ""] ∧
      navigations (login staticBrowser prodSetup (some { url := Val.str "" }) loadedPage).log =
        [Val.str "/dashboard/auth/login", Val.str "/dashboard/c/local/harvester"] ∧
      navigations (login staticBrowser prodSetup (some { url := Val.str "" }) loadedPage).log ≠
        [Val.str "/dashboard/auth/login", Val.str ("/dashboard" ++ "")] := by
  decide

/-- Claim C4, amended: for a target `u` that is not the empty string, the
navigations of `login({url: u})` are, in order, the login page and then the
target, each as the overwritten `visit` sends it: `/auth/login` and `u` in dev
mode, `/dashboard/auth/login` and `/dashboard` followed by `u` otherwise.  A
run that fails early makes only the first of them or none; a run that succeeds
makes both. -/
theorem login_navigation {σ : Type} (W : World σ) (S : Setup) (p : LoginParams)
    (u : String) (s : σ) (hu : u ≠ "") (hp : p.url = Val.str u) :
    (S.env.NODE_ENV = Val.str "dev" →
      navigations (login W S (some p) s).log <+: [Val.str "/auth/login", Val.str u] ∧
      (∀ sf : σ, (login W S (some p) s).value = Except.ok ((), sf) →
        navigations (login W S (some p) s).log = [Val.str "/auth/login", Val.str u])) ∧
    (S.env.NODE_ENV ≠ Val.str "dev" →
      navigations (login W S (some p) s).log <+:
        [Val.str "/dashboard/auth/login", Val.str ("/dashboard" ++ u)] ∧
      (∀ sf : σ, (login W S (some p) s).value = Except.ok ((), sf) →
        navigations (login W S (some p) s).log =
          [Val.str "/dashboard/auth/login", Val.str ("/dashboard" ++ u)])) := by
  constructor
  · intro hd
    simp only [login_run, Option.getD_some, resolvedUrl_of_nonempty S p u hu hp,
      navTarget_dev S.env hd]
    repeat' split
    all_goals simp_all [navigations, Event.visited?]
  · intro hd
    simp only [login_run, Option.getD_some, resolvedUrl_of_nonempty S p u hu hp,
      navTarget_not_dev S.env hd]
    repeat' split
    all_goals simp_all [navigations, Event.visited?]

/-- Claim C4, amended, on `login({url: '/settings'})`: `/settings` in dev
mode, `/dashboard/settings` outside it. -/
theorem login_navigation_witness :
    navigations (login staticBrowser devSetup (some { url := Val.str "/settings" })
        loadedPage).log = [Val.str "/auth/login", Val.str "/settings"] ∧
      navigations (login staticBrowser prodSetup (some { url := Val.str "/settings" })
        loadedPage).log = [Val.str "/dashboard/auth/login", Val.str "/dashboard/settings"] :=
  ⟨((login_navigation staticBrowser devSetup { url := Val.str "/settings" } "/settings"
      loadedPage (by decide) rfl).1 rfl).2 loadedPage rfl,
    ((login_navigation staticBrowser prodSetup { url := Val.str "/settings" } "/settings"
      loadedPage (by decide) rfl).2 (by decide)).2 loadedPage rfl⟩

/-! ## Failing steps -/

/-- Claim C6: a failing step ends `login` with that failure and nothing runs
after it.  When the wait for `@authProviders` fails, the run fails on the wait
and consists of the interception, the visit of the login page and the wait: no
cookie is read, nothing is posted, no further page is visited, no element is
checked.  When the credentials request fails, the run fails on the request,
which was issued once, and ends there.  In general a run that fails ends with
the command that failed. -/
theorem login_stops_on_failure {σ : Type} (W : World σ) (S : Setup)
    (arg : Option LoginParams) (s : σ) :
    (∀ s1 s2 : σ,
      W.exec (Cmd.intercept "GET" "/v3-public/authProviders" "authProviders") s = some s1 →
      W.exec (Cmd.visit (navTarget S.env (Val.str "/auth/login")) Val.undefined) s1 = some s2 →
      W.exec (Cmd.wait "@authProviders") s2 = none →
      (login W S arg s).value = Except.error (Cmd.wait "@authProviders") ∧
      (login W S arg s).log =
        [Event.cmd (Cmd.intercept "GET" "/v3-public/authProviders" "authProviders"),
          Event.cmd (Cmd.visit (navTarget S.env (Val.str "/auth/login")) Val.undefined),
          Event.cmd (Cmd.wait "@authProviders")]) ∧
    (∀ s3 : σ, afterWait W S.env s = some s3 →
      W.exec (Cmd.request
        { method := "POST"
          url := "/v3-public/localProviders/local?action=login"
          body :=
            { description := "UI session"
              responseType := "cookie"
              username := resolvedUsername S (arg.getD {})
              password := resolvedPassword S (arg.getD {}) }
          headers := { xApiCsrf := S.cookieParse (W.cookie s3) "CSRF" } }) s3 = none →
      (login W S arg s).value = Except.error (Cmd.request
        { method := "POST"
          url := "/v3-public/localProviders/local?action=login"
          body :=
            { description := "UI session"
              responseType := "cookie"
              username := resolvedUsername S (arg.getD {})
              password := resolvedPassword S (arg.getD {}) }
          headers := { xApiCsrf := S.cookieParse (W.cookie s3) "CSRF" } }) ∧
      (login W S arg s).log =
        [Event.cmd (Cmd.intercept "GET" "/v3-public/authProviders" "authProviders"),
          Event.cmd (Cmd.visit (navTarget S.env (Val.str "/auth/login")) Val.undefined),
          Event.cmd (Cmd.wait "@authProviders"),
          Event.cookieRead (W.cookie s3),
          Event.cmd (Cmd.request
            { method := "POST"
              url := "/v3-public/localProviders/local?action=login"
              body :=
                { description := "UI session"
                  responseType := "cookie"
                  username := resolvedUsername S (arg.getD {})
                  password := resolvedPassword S (arg.getD {}) }
              headers := { xApiCsrf := S.cookieParse (W.cookie s3) "CSRF" } })]) ∧
    (∀ c : Cmd, (login W S arg s).value = Except.error c →
      (login W S arg s).log.getLast? = some (Event.cmd c)) := by
  refine ⟨?_, ?_, ?_⟩
  · intro s1 s2 h1 h2 h3
    simp [login_run, h1, h2, h3]
  · intro s3 h3 hr
    simp only [afterWait] at h3
    split at h3
    · contradiction
    · rename_i s1 h1
      split at h3
      · contradiction
      · rename_i s2 h2
        simp [login_run, h1, h2, h3, hr]
  · intro c
    simp only [login_run]
    repeat' split
    all_goals simp_all

/-- Claim C6 on a page where `authProviders` is never requested and on a page
whose backend rejects the credentials. -/
theorem login_stops_on_failure_witness :
    ((login staticBrowser devSetup none silentPage).value =
        Except.error (Cmd.wait "@authProviders") ∧
      (login staticBrowser devSetup none silentPage).log =
        [Event.cmd (Cmd.intercept "GET" "/v3-public/authProviders" "authProviders"),
          Event.cmd (Cmd.visit (Val.str "/auth/login") Val.undefined),
          Event.cmd (Cmd.wait "@authProviders")]) ∧
    (login staticBrowser devSetup none rejectingPage).log =
      [Event.cmd (Cmd.intercept "GET" "/v3-public/authProviders" "authProviders"),
        Event.cmd (Cmd.visit (Val.str "/auth/login") Val.undefined),
        Event.cmd (Cmd.wait "@authProviders"),
        Event.cookieRead "R_LOCALE=en-us; CSRF=3f2a9c",
        Event.cmd (Cmd.request
          { method := "POST"
            url := "/v3-public/localProviders/local?action=login"
            body :=
              { description := "UI session"
                responseType := "cookie"
                username := Val.str "admin"
                password := Val.str "password1234" }
            headers := { xApiCsrf := Val.str "3f2a9c" } })] ∧
    (login staticBrowser devSetup none silentPage).log.getLast? =
      some (Event.cmd (Cmd.wait "@authProviders")) :=
  ⟨(login_stops_on_failure staticBrowser devSetup none silentPage).1 silentPage silentPage
      rfl rfl rfl,
    ((login_stops_on_failure staticBrowser devSetup none rejectingPage).2.1 rejectingPage
      rfl rfl).2,
    (login_stops_on_failure staticBrowser devSetup none silentPage).2.2
      (Cmd.wait "@authProviders") rfl⟩

/-! ## A cookie string without the field `CSRF` -/

/-- Claim C7: when the cookie string read after the wait has no field `CSRF`,
the run does not stop at the parse: the credentials request is issued next,
with the same method, address and body, and with the header `x-api-csrf`
undefined; it is the only request of the run. -/
theorem login_without_csrf {σ : Type} (W : World σ) (S : Setup) (arg : Option LoginParams)
    (s s3 : σ) (h3 : afterWait W S.env s = some s3)
    (hc : S.cookieParse (W.cookie s3) "CSRF" = Val.undefined) :
    [Event.cmd (Cmd.intercept "GET" "/v3-public/authProviders" "authProviders"),
      Event.cmd (Cmd.visit (navTarget S.env (Val.str "/auth/login")) Val.undefined),
      Event.cmd (Cmd.wait "@authProviders"),
      Event.cookieRead (W.cookie s3),
      Event.cmd (Cmd.request
        { method := "POST"
          url := "/v3-public/localProviders/local?action=login"
          body :=
            { description := "UI session"
              responseType := "cookie"
              username := resolvedUsername S (arg.getD {})
              password := resolvedPassword S (arg.getD {}) }
          headers := { xApiCsrf := Val.undefined } })] <+: (login W S arg s).log ∧
    requests (login W S arg s).log =
      [{ method := "POST"
         url := "/v3-public/localProviders/local?action=login"
         body :=
          { description := "UI session"
            responseType := "cookie"
            username := resolvedUsername S (arg.getD {})
            password := resolvedPassword S (arg.getD {}) }
         headers := { xApiCsrf := Val.undefined } }] := by
  revert h3 hc
  simp only [login_run, afterWait]
  repeat' split
  all_goals simp_all [requests, Event.request?]

/-- Claim C7 on `login()` on a page whose cookie string is `R_LOCALE=en-us`. -/
theorem login_without_csrf_witness :
    requests (login staticBrowser devSetup none noCsrfPage).log =
      [{ method := "POST"
         url := "/v3-public/localProviders/local?action=login"
         body :=
          { description := "UI session"
            responseType := "cookie"
            username := Val.str "admin"
            password := Val.str "password1234" }
         headers := { xApiCsrf := Val.undefined } }] :=
  (login_without_csrf staticBrowser devSetup none noCsrfPage noCsrfPage rfl rfl).2

/-! ## The checks after the navigation -/

/-- Claim C8, as stated, fails.  The check on `.initial-load-spinner` is a
plain `cy.get`: it passes when the element is found.  On a page where the
indicator stays and the product name is shown, `login` succeeds although the
indicator has not gone; on a page where the indicator is gone and the product
name is shown, `login` fails on that check.  And the timeout
`constants.timeout.maxTimeout` is an option of that check only: the check on
`.dashboard-content .product-name` is issued without a timeout. -/
theorem login_spinner_check_is_presence :
    (login staticBrowser devSetup none loadedPage).value = Except.ok ((), loadedPage) ∧
      ".initial-load-spinner" ∈ loadedPage.present ∧
      ".initial-load-spinner" ∉ spinnerGonePage.present ∧
      (".dashboard-content .product-name", "Harvester") ∈ spinnerGonePage.texts ∧
      (login staticBrowser devSetup none spinnerGonePage).value =
        Except.error (Cmd.get ".initial-load-spinner" (some { timeout := 1800000 })) ∧
      (login staticBrowser devSetup none loadedPage).log.drop 6 =
        [Event.cmd (Cmd.get ".initial-load-spinner" (some { timeout := 1800000 })),
          Event.cmd (Cmd.get ".dashboard-content .product-name" none),
          Event.cmd (Cmd.contains ".dashboard-content .product-name" "Harvester")] :=
  ⟨rfl, by decide, by decide, by decide, rfl, by decide⟩

/-- Claim C8, amended: after the navigation that follows the login, `login`
issues `cy.get('.initial-load-spinner')` with the timeout option
`constants.timeout.maxTimeout`, then `cy.get('.dashboard-content .product-name')`
without a timeout option, then `.contains('Harvester')` on that element, in
this order and nothing else; it succeeds exactly when the three commands
succeed one after the other, and when one of them fails `login` fails on it
and the later ones are not issued. -/
theorem login_checks {σ : Type} (W : World σ) (S : Setup) (arg : Option LoginParams)
    (s s6 : σ) (h6 : afterNavigation W S arg s = some s6) :
    (login W S arg s).log.drop 6 <+:
        [Event.cmd (Cmd.get ".initial-load-spinner"
            (some { timeout := S.constants.timeout.maxTimeout })),
          Event.cmd (Cmd.get ".dashboard-content .product-name" none),
          Event.cmd (Cmd.contains ".dashboard-content .product-name" "Harvester")] ∧
    (∀ sf : σ, (login W S arg s).value = Except.ok ((), sf) ↔
      ∃ s7 s8 : σ,
        W.exec (Cmd.get ".initial-load-spinner"
          (some { timeout := S.constants.timeout.maxTimeout })) s6 = some s7 ∧
        W.exec (Cmd.get ".dashboard-content .product-name" none) s7 = some s8 ∧
        W.exec (Cmd.contains ".dashboard-content .product-name" "Harvester") s8 = some sf) ∧
    (W.exec (Cmd.get ".initial-load-spinner"
        (some { timeout := S.constants.timeout.maxTimeout })) s6 = none →
      (login W S arg s).value = Except.error (Cmd.get ".initial-load-spinner"
        (some { timeout := S.constants.timeout.maxTimeout })) ∧
      (login W S arg s).log.drop 6 =
        [Event.cmd (Cmd.get ".initial-load-spinner"
          (some { timeout := S.constants.timeout.maxTimeout }))]) ∧
    (∀ s7 : σ,
      W.exec (Cmd.get ".initial-load-spinner"
        (some { timeout := S.constants.timeout.maxTimeout })) s6 = some s7 →
      W.exec (Cmd.get ".dashboard-content .product-name" none) s7 = none →
      (login W S arg s).value =
        Except.error (Cmd.get ".dashboard-content .product-name" none) ∧
      (login W S arg s).log.drop 6 =
        [Event.cmd (Cmd.get ".initial-load-spinner"
            (some { timeout := S.constants.timeout.maxTimeout })),
          Event.cmd (Cmd.get ".dashboard-content .product-name" none)]) ∧
    (∀ s7 s8 : σ,
      W.exec (Cmd.get ".initial-load-spinner"
        (some { timeout := S.constants.timeout.maxTimeout })) s6 = some s7 →
      W.exec (Cmd.get ".dashboard-content .product-name" none) s7 = some s8 →
      W.exec (Cmd.contains ".dashboard-content .product-name" "Harvester") s8 = none →
      (login W S arg s).value =
        Except.error (Cmd.contains ".dashboard-content .product-name" "Harvester")) := by
  simp only [afterNavigation, afterWait] at h6
  split at h6
  · contradiction
  · rename_i s3 h3
    split at h3
    · contradiction
    · rename_i s1 h1
      split at h3
      · contradiction
      · rename_i s2 h2
        split at h6
        · contradiction
        · rename_i s5 h5
          simp only [login_run, h1, h2, h3, h5, h6]
          refine ⟨?_, ?_, ?_, ?_, ?_⟩
          · repeat' split
            all_goals simp_all
          · intro sf
            repeat' split
            all_goals simp_all
          · intro h7
            simp [h7]
          · intro s7 h7 h8
            simp [h7, h8]
          · intro s7 s8 h7 h8 h9
            simp [h7, h8, h9]

/-- Claim C8, amended, on `login()` on four pages: one where the three
commands pass, and one for the failure of each of them. -/
theorem login_checks_witness :
    (login staticBrowser devSetup none loadedPage).value = Except.ok ((), loadedPage) ∧
    (login staticBrowser devSetup none spinnerGonePage).value =
      Except.error (Cmd.get ".initial-load-spinner" (some { timeout := 1800000 })) ∧
    (login staticBrowser devSetup none shellPage).value =
      Except.error (Cmd.get ".dashboard-content .product-name" none) ∧
    (login staticBrowser devSetup none otherProductPage).value =
      Except.error (Cmd.contains ".dashboard-content .product-name" "Harvester") :=
  ⟨((login_checks staticBrowser devSetup none loadedPage loadedPage rfl).2.1 loadedPage).2
      ⟨loadedPage, loadedPage, rfl, rfl, rfl⟩,
    ((login_checks staticBrowser devSetup none spinnerGonePage spinnerGonePage
      rfl).2.2.1 rfl).1,
    ((login_checks staticBrowser devSetup none shellPage shellPage rfl).2.2.2.1 shellPage
      rfl rfl).1,
    (login_checks staticBrowser devSetup none otherProductPage otherProductPage
      rfl).2.2.2.2 otherProductPage otherProductPage rfl rfl rfl⟩

end Commands
